import Mathlib

/-!
Verification of `start-server.py` (takunagai/sonicbloom): a single-file
local development HTTP server that serves static files from the directory
containing the script, injects three permissive CORS response headers into every
response, opens the default browser at startup, and serves until
interrupted.

The embedding below mirrors the source:
* `end_headers` models `CORSRequestHandler.end_headers`: it queues the three
  CORS headers and then flushes, so the finalized header list is the
  previously queued headers followed by the three CORS headers.
* `handleRequest` models how `SimpleHTTPRequestHandler` (the base class)
  dispatches: GET/HEAD map the path to a file (200 on hit, 404 via
  `send_error` on miss); any other method — the class defines no `do_POST`
  or `do_OPTIONS` — gets a 501 via `send_error`. Every one of those paths
  finalizes its response through the overridden `end_headers`.
* `main` models the `main()` function: chdir to the script directory,
  construct the `TCPServer` (bind), print the banner, call
  `webbrowser.open`, then `serve_forever`.  `serve_forever` never returns
  normally; it is left only by an exception (normally `KeyboardInterrupt`).
  The `Env` structure injects the nondeterminism: whether the bind raises,
  whether the browser call returns a Bool or raises, and which exception
  eventually ends the serve loop.  `main` catches `KeyboardInterrupt`,
  `OSError` and every other `Exception` (the type `Exc` covers exactly that
  caught hierarchy), prints a message, and returns normally; the process
  then exits with status 0 because nothing calls `sys.exit`.
-/

namespace StartServer

/-- `PORT = 8000` in the source. -/
def PORT : Nat := 8000

/-- An HTTP header: name and value. -/
abbrev Header := String × String

/-- Header `Access-Control-Allow-Origin: *`. -/
def corsOrigin : Header := ("Access-Control-Allow-Origin", "*")

/-- Header `Access-Control-Allow-Methods: GET, POST, OPTIONS`. -/
def corsMethods : Header := ("Access-Control-Allow-Methods", "GET, POST, OPTIONS")

/-- Header `Access-Control-Allow-Headers: *`. -/
def corsAllowHeaders : Header := ("Access-Control-Allow-Headers", "*")

/-- The three headers sent by `CORSRequestHandler.end_headers`, in order. -/
def corsHeaderList : List Header := [corsOrigin, corsMethods, corsAllowHeaders]

/-- `CORSRequestHandler.end_headers`: given the headers already queued by
`send_header` calls for this response, queue the three CORS headers and
flush (`super().end_headers()`).  The finalized header list is the queued
headers followed by the three CORS headers. -/
def end_headers (sent : List Header) : List Header :=
  sent ++ corsHeaderList

/-- A finalized HTTP response: status code and the headers actually sent. -/
structure Response where
  status : Nat
  headers : List Header
deriving DecidableEq

/-- Finalizing a response with the given status and queued headers always
goes through `end_headers` (both `send_error` and the normal `do_GET` /
`do_HEAD` paths of the base class end by calling it). -/
def finalizeResponse (status : Nat) (hs : List Header) : Response :=
  ⟨status, end_headers hs⟩

/-- An HTTP request method. -/
inductive Method
  | GET
  | HEAD
  | POST
  | OPTIONS
  | other (name : String)
deriving DecidableEq

/-- Content type guessed by `SimpleHTTPRequestHandler.guess_type`
(only the cases that matter for the files of this repository). -/
def guessType (path : String) : String :=
  if path.endsWith ".html" then "text/html"
  else if path.endsWith ".js" then "text/javascript"
  else if path.endsWith ".css" then "text/css"
  else "application/octet-stream"

/-- Headers queued by `BaseHTTPRequestHandler.send_error` before it
finalizes the error response. -/
def errorHeaders : List Header :=
  [("Content-Type", "text/html;charset=utf-8"), ("Connection", "close")]

/-- One request handled by `CORSRequestHandler`, as dispatched by the base
classes: GET/HEAD serve the file when the path resolves to one (status 200)
and answer 404 via `send_error` otherwise; any other method (the handler
defines no `do_POST`, `do_OPTIONS`, …) is answered 501 via `send_error`.
`fileExists` abstracts the document-root file system.  Every branch
finalizes through the overridden `end_headers`. -/
def handleRequest (fileExists : String → Bool) (m : Method) (path : String) : Response :=
  match m with
  | .GET =>
      if fileExists path then
        finalizeResponse 200 [("Content-type", guessType path)]
      else
        finalizeResponse 404 errorHeaders
  | .HEAD =>
      if fileExists path then
        finalizeResponse 200 [("Content-type", guessType path)]
      else
        finalizeResponse 404 errorHeaders
  | _ => finalizeResponse 501 errorHeaders

/-- The response carries all three CORS headers. -/
def hasCORS (r : Response) : Prop :=
  corsOrigin ∈ r.headers ∧ corsMethods ∈ r.headers ∧ corsAllowHeaders ∈ r.headers

instance (r : Response) : Decidable (hasCORS r) := by
  unfold hasCORS; infer_instance

/-- The exceptions `main` can see, covering exactly the hierarchy its
`except` clauses catch: `KeyboardInterrupt`, `OSError` (with its `errno`),
and every other `Exception`. -/
inductive Exc
  | keyboardInterrupt
  | osError (errno : Nat) (msg : String)
  | otherExc (msg : String)
deriving DecidableEq

/-- Outcome of the `webbrowser.open` call: it either returns a Bool
(`True` if a browser was launched, `False` if none could be) or raises. -/
inductive BrowserOutcome
  | opened (ok : Bool)
  | raises (e : Exc)
deriving DecidableEq

/-- The environment a run of `main` executes in: the script directory,
whether constructing the `TCPServer` raises (`none` = bind succeeds),
what `webbrowser.open` does, and the exception that eventually ends
`serve_forever` (it never returns normally). -/
structure Env where
  scriptDir : String
  bindError : Option Exc
  browserOutcome : BrowserOutcome
  serveExc : Exc
deriving DecidableEq

/-- Observable side effects of a run, in program order. -/
inductive Event
  | chdir (dir : String)
  | bindSocket (port : Nat)
  | browserOpen (url : String)
  | serveLoop
  | closeSocket
deriving DecidableEq

/-- The URL printed and opened: `http://localhost:{PORT}`. -/
def rootURL : String := "http://localhost:" ++ toString PORT

/-- The banner printed after the server socket is created. -/
def startupMessages (d : String) : List String :=
  ["🚀 Interactive Particle Animation サーバーを起動しています...",
   "📍 URL: " ++ rootURL,
   "📁 ディレクトリ: " ++ d,
   "⭐ ブラウザが自動で開きます...",
   "🛑 サーバーを停止するには Ctrl+C を押してください",
   String.mk (List.replicate 50 '-')]

/-- Message printed by the `KeyboardInterrupt` handler. -/
def stopMessage : String := "\n🛑 サーバーを停止しました"

/-- The two messages printed when `e.errno == 48` (port already in use). -/
def portInUseMessages : List String :=
  ["❌ ポート " ++ toString PORT ++ " は既に使用されています",
   "💡 他のサーバーを停止するか、別のポートを使用してください"]

/-- `str(e)` for an exception, as interpolated into the error messages. -/
def excMessage : Exc → String
  | .keyboardInterrupt => "KeyboardInterrupt"
  | .osError errno msg => "[Errno " ++ toString errno ++ "] " ++ msg
  | .otherExc msg => msg

/-- The `except` clauses of `main`, in source order: `KeyboardInterrupt`
prints the stop message; `OSError` prints the port-in-use messages when
`e.errno == 48` and the generic error message otherwise; any other
`Exception` prints the unexpected-error message. -/
def handleExc : Exc → List String
  | .keyboardInterrupt => [stopMessage]
  | .osError errno msg =>
      if errno = 48 then portInUseMessages
      else ["❌ エラーが発生しました: " ++ excMessage (.osError errno msg)]
  | .otherExc msg => ["❌ 予期しないエラー: " ++ msg]

/-- What a run of `main` did: the events in order, the lines printed, whether
`serve_forever` was reached, and the exception `main` propagates to its
caller (`none` when `main` returns normally). -/
structure RunResult where
  trace : List Event
  output : List String
  enteredServeLoop : Bool
  propagated : Option Exc
deriving DecidableEq

/-- The `try` block of `main`: chdir to the script directory, create the
`TCPServer` (which binds; a raise skips everything after it), print the
banner, call `webbrowser.open` (a raise leaves the `with` block, closing
the socket, without reaching `serve_forever`), then `serve_forever`, which
is left only by an exception.  Returns the events, the printed lines,
whether the serve loop was entered, and the exception leaving the block. -/
def tryBody (env : Env) : List Event × List String × Bool × Exc :=
  match env.bindError with
  | some e => ([.chdir env.scriptDir], [], false, e)
  | none =>
      match env.browserOutcome with
      | .raises e =>
          ([.chdir env.scriptDir, .bindSocket PORT, .browserOpen rootURL, .closeSocket],
           startupMessages env.scriptDir, false, e)
      | .opened _ =>
          ([.chdir env.scriptDir, .bindSocket PORT, .browserOpen rootURL,
            .serveLoop, .closeSocket],
           startupMessages env.scriptDir, true, env.serveExc)

/-- `main()`: run the `try` block; whatever exception leaves it is caught by
one of the three `except` clauses, which prints its message; `main` then
returns normally (it never re-raises and never calls `sys.exit`). -/
def main (env : Env) : RunResult :=
  let r := tryBody env
  { trace := r.1
    output := r.2.1 ++ handleExc r.2.2.2
    enteredServeLoop := r.2.2.1
    propagated := none }

/-- Process exit status: `main()` is called at module level with no further
code, so the interpreter exits 0 when `main` returns normally and nonzero
only if an exception propagated out of `main`. -/
def processExitCode (env : Env) : Nat :=
  match (main env).propagated with
  | none => 0
  | some _ => 1

theorem finalize_has_cors (status : Nat) (hs : List Header) :
    hasCORS (finalizeResponse status hs) := by
  refine ⟨?_, ?_, ?_⟩ <;>
    · show _ ∈ hs ++ corsHeaderList
      exact List.mem_append_right hs (by simp [corsHeaderList])

/-- C1: every HTTP response the server finalizes — any status via
`finalizeResponse`, and in particular the response to any method on any
path — carries the three CORS headers, because the overridden
`end_headers` appends them unconditionally. -/
theorem every_response_has_cors :
    (∀ (status : Nat) (hs : List Header), hasCORS (finalizeResponse status hs)) ∧
    (∀ (fileExists : String → Bool) (m : Method) (path : String),
        hasCORS (handleRequest fileExists m path)) := by
  refine ⟨finalize_has_cors, ?_⟩
  intro fileExists m path
  cases m <;> simp only [handleRequest] <;>
    first
      | exact finalize_has_cors _ _
      | split <;> exact finalize_has_cors _ _

/-- Concrete environment in which the bind fails with errno 48. -/
def envPortInUse : Env :=
  ⟨"/srv", some (.osError 48 "Address already in use"), .opened true, .keyboardInterrupt⟩

/-- C2: when the bind raises OSError with errno 48 (the condition the code
recognizes as port-in-use), the two human-readable port-in-use messages are
printed, the serve loop is never entered, no request is served, and the
process exits normally. -/
theorem port_in_use_reports_and_exits_without_serving
    (env : Env) (msg : String)
    (h : env.bindError = some (Exc.osError 48 msg)) :
    (main env).output = portInUseMessages ∧
    (main env).enteredServeLoop = false ∧
    Event.serveLoop ∉ (main env).trace ∧
    (main env).propagated = none := by
  obtain ⟨d, be, bo, se⟩ := env
  cases be with
  | none => cases h
  | some e =>
      injection h with h
      subst h
      refine ⟨rfl, rfl, ?_, rfl⟩
      simp [main, tryBody]

/-- C2 witness: a concrete run in which the bind fails with errno 48. -/
theorem port_in_use_witness :
    envPortInUse.bindError = some (Exc.osError 48 "Address already in use") ∧
    ((main envPortInUse).output = portInUseMessages ∧
     (main envPortInUse).enteredServeLoop = false ∧
     Event.serveLoop ∉ (main envPortInUse).trace ∧
     (main envPortInUse).propagated = none) :=
  ⟨rfl,
   port_in_use_reports_and_exits_without_serving envPortInUse
     "Address already in use" rfl⟩

/-- C3 counterexample: the claim says any startup-time error (including
port-in-use) yields a non-zero exit status, but at this concrete
port-in-use startup error the exit status is 0: `main` catches the OSError
and returns normally, and nothing calls `sys.exit`. -/
theorem nonzero_exit_on_startup_error_counterexample :
    envPortInUse.bindError = some (Exc.osError 48 "Address already in use") ∧
    processExitCode envPortInUse = 0 :=
  ⟨rfl, rfl⟩

/-- C3 amended: the process exit status is 0 when shutdown is caused by an
interrupt during serving, and it is also 0 on every startup-time error
(including port-in-use), because `main` catches every exception, prints a
message, and returns normally. -/
theorem exit_code_always_zero (env : Env) : processExitCode env = 0 := rfl

/-- C4: in every run the very first observable action is changing the
current working directory to the directory containing the running script;
in particular it precedes the socket bind and all request handling, so
relative request paths are resolved against that directory regardless of
where the process was launched from. -/
theorem chdir_to_script_dir_first (env : Env) :
    (main env).trace.head? = some (Event.chdir env.scriptDir) := by
  obtain ⟨d, be, bo, se⟩ := env
  cases be with
  | some e => rfl
  | none => cases bo <;> rfl

/-- The event is a socket bind. -/
def isBindEvent : Event → Bool
  | .bindSocket _ => true
  | _ => false

/-- The event is a browser-open call. -/
def isBrowserEvent : Event → Bool
  | .browserOpen _ => true
  | _ => false

/-- The event is entering the serve loop. -/
def isServeEvent : Event → Bool
  | .serveLoop => true
  | _ => false

/-- C5: when the bind succeeds and `webbrowser.open` returns, the run trace
is exactly chdir, bind, browserOpen(rootURL), serveLoop, close: the browser
is opened at position 2, strictly after the bind at position 1 and strictly
before the serve loop at position 3.  (Even when `webbrowser.open` raises,
the open is still attempted after the bind and before any serve loop.) -/
theorem browser_opened_between_bind_and_serve
    (d : String) (b : Bool) (se e : Exc) :
    (main ⟨d, none, .opened b, se⟩).trace
      = [.chdir d, .bindSocket PORT, .browserOpen rootURL, .serveLoop, .closeSocket] ∧
    (main ⟨d, none, .opened b, se⟩).trace.findIdx? isBindEvent = some 1 ∧
    (main ⟨d, none, .opened b, se⟩).trace.findIdx? isBrowserEvent = some 2 ∧
    (main ⟨d, none, .opened b, se⟩).trace.findIdx? isServeEvent = some 3 ∧
    (main ⟨d, none, .raises e, se⟩).trace
      = [.chdir d, .bindSocket PORT, .browserOpen rootURL, .closeSocket] :=
  ⟨rfl, rfl, rfl, rfl, rfl⟩

/-- Concrete environment in which `webbrowser.open` raises. -/
def envBrowserRaises : Env :=
  ⟨"/srv", none, .raises (.otherExc "could not locate runnable browser"),
   .keyboardInterrupt⟩

/-- C6 counterexample: when `webbrowser.open` raises an exception (for
example because no GUI is available), the serve loop is never entered —
the exception propagates out of the `with` block and is caught by the
`except Exception` clause of `main` — contrary to the claim that the
server continues into its serve loop. -/
theorem browser_exception_skips_serving_counterexample :
    (main envBrowserRaises).enteredServeLoop = false ∧
    Event.serveLoop ∉ (main envBrowserRaises).trace :=
  ⟨rfl, by decide⟩

/-- C6 amended: if `webbrowser.open` fails by returning False (its normal
failure mode when no browser can be launched), the server does continue
into its serve loop; but if the call raises an exception, the serve loop is
never entered: the exception is caught inside `main`, the startup banner
plus an error message are printed, and `main` returns normally. -/
theorem browser_failure_behavior (d : String) (se e : Exc) :
    (main ⟨d, none, .opened false, se⟩).enteredServeLoop = true ∧
    (main ⟨d, none, .raises e, se⟩).enteredServeLoop = false ∧
    (main ⟨d, none, .raises e, se⟩).propagated = none ∧
    (main ⟨d, none, .raises e, se⟩).output = startupMessages d ++ handleExc e :=
  ⟨rfl, rfl, rfl, rfl⟩

/-- C7: a GET for a path that resolves to no file under the document root
returns status 404, and that 404 response still carries the three CORS
headers. -/
theorem missing_file_404_has_cors
    (fileExists : String → Bool) (path : String) (h : fileExists path = false) :
    (handleRequest fileExists .GET path).status = 404 ∧
    hasCORS (handleRequest fileExists .GET path) := by
  simp only [handleRequest, h, Bool.false_eq_true, if_false]
  exact ⟨rfl, finalize_has_cors _ _⟩

/-- C7 witness: a concrete miss on an empty document root. -/
theorem missing_file_404_has_cors_witness :
    (fun _ : String => false) "/nope" = false ∧
    ((handleRequest (fun _ => false) .GET "/nope").status = 404 ∧
     hasCORS (handleRequest (fun _ => false) .GET "/nope")) :=
  ⟨rfl, missing_file_404_has_cors (fun _ => false) "/nope" rfl⟩

/-- C8: responses to OPTIONS preflight requests carry the three CORS
headers, just as responses to GET and POST do (the handler defines no
`do_OPTIONS` or `do_POST`, so those methods are answered 501 via
`send_error`, which still finalizes through the overridden
`end_headers`). -/
theorem options_preflight_has_cors (fileExists : String → Bool) (path : String) :
    hasCORS (handleRequest fileExists .OPTIONS path) ∧
    hasCORS (handleRequest fileExists .GET path) ∧
    hasCORS (handleRequest fileExists .POST path) := by
  refine ⟨finalize_has_cors _ _, ?_, finalize_has_cors _ _⟩
  simp only [handleRequest]
  split <;> exact finalize_has_cors _ _

/-- C9: port-in-use is recognized solely by the OSError having errno 48:
with errno 48 the bind failure prints the two port-in-use messages, while
any other errno (for example 98, EADDRINUSE on Linux) prints the generic
error message instead. -/
theorem errno_48_dispatch
    (d msg : String) (bo : BrowserOutcome) (se : Exc)
    (errno : Nat) (h : errno ≠ 48) :
    (main ⟨d, some (.osError 48 msg), bo, se⟩).output = portInUseMessages ∧
    (main ⟨d, some (.osError errno msg), bo, se⟩).output
      = ["❌ エラーが発生しました: " ++ excMessage (Exc.osError errno msg)] := by
  constructor
  · rfl
  · simp [main, tryBody, handleExc, h]

/-- C9 witness: errno 98 (EADDRINUSE on Linux) gets the generic message,
while errno 48 gets the port-in-use messages. -/
theorem errno_48_dispatch_witness :
    (98 : Nat) ≠ 48 ∧
    ((main ⟨"/srv", some (.osError 48 "in use"), .opened true, .keyboardInterrupt⟩).output
        = portInUseMessages ∧
     (main ⟨"/srv", some (.osError 98 "in use"), .opened true, .keyboardInterrupt⟩).output
        = ["❌ エラーが発生しました: " ++ excMessage (Exc.osError 98 "in use")]) :=
  ⟨by decide,
   errno_48_dispatch "/srv" "in use" (.opened true) .keyboardInterrupt 98 (by decide)⟩

theorem handleExc_ne_nil (e : Exc) : handleExc e ≠ [] := by
  cases e with
  | keyboardInterrupt => simp [handleExc]
  | osError errno msg =>
      simp only [handleExc]
      split <;> simp [portInUseMessages]
  | otherExc msg => simp [handleExc]

/-- C10: `main` never propagates an exception to its caller: whatever
KeyboardInterrupt, OSError or other Exception is raised during startup or
serving, it is caught inside `main`, at least one message is printed, and
`main` returns normally. -/
theorem main_catches_everything (env : Env) :
    (main env).propagated = none ∧ (main env).output ≠ [] := by
  refine ⟨rfl, ?_⟩
  obtain ⟨d, be, bo, se⟩ := env
  cases be with
  | some e => simpa [main, tryBody] using handleExc_ne_nil e
  | none =>
      cases bo with
      | opened ok => simp [main, tryBody, startupMessages]
      | raises e => simp [main, tryBody, startupMessages]

end StartServer
